import Mathlib

/-!
Verification development for the Wavefront RLA output plugin
(src/rla.imageio/rlaoutput.cpp).  The channel classifier and the
header serializer of RLAOutput::open, together with
RLAOutput::set_chromaticity and RLAOutput::write_scanline, are embedded
as executable Lean functions, and the stated properties of the spec are
settled against them.
-/

namespace RLA

/-- Modelled from the spec: pixel data types (typedesc.h is not among the
sources); only the byte size of a type and the float/non-float distinction
are used by the classifier. -/
inductive ChanType where
  | UINT8
  | UINT16
  | HALF
  | FLOAT
  deriving DecidableEq

/-- Modelled from the spec: byte size of a pixel type (TypeDesc::size). -/
def ChanType.size : ChanType → Nat
  | .UINT8 => 1
  | .UINT16 => 2
  | .HALF => 2
  | .FLOAT => 4

/-- Modelled from the spec: the Byte channel type code of rla_pvt.h (absent
from the sources); a zeroed int16 header field holds this code. -/
def CT_BYTE : Int := 0

/-- Modelled from the spec: the Float channel type code of rla_pvt.h (absent
from the sources); distinct from the Byte code. -/
def CT_FLOAT : Int := 4

/-- The channel-related fields of the WAVEFRONT header record, zeroed by the
memset in RLAOutput::open (line 147) before classification fills them in. -/
structure RlaChans where
  ColorChannelType : Int := 0
  NumOfColorChannels : Int := 0
  NumOfChannelBits : Int := 0
  MatteChannelType : Int := 0
  NumOfMatteChannels : Int := 0
  NumOfMatteBits : Int := 0
  AuxChannelType : Int := 0
  NumOfAuxChannels : Int := 0
  NumOfAuxBits : Int := 0
  deriving DecidableEq

/-- Reading m_spec.channelformats[i]: an index past the end of the vector is
an out-of-bounds read whose outcome is the unspecified memory content mem i. -/
def cfRead (cf : List ChanType) (mem : Nat → ChanType) (i : Nat) : ChanType :=
  match cf.get? i with
  | some t => t
  | none => mem i

/-- Whether reading index i of the channel-format list is out of bounds. -/
def cfOOB (cf : List ChanType) (i : Nat) : Bool := cf.length ≤ i

/-- The colour streak loop of RLAOutput::open (lines 166-168):
for (streak = 1; streak < 3 and remaining > 0; ++streak, --remaining)
  if (channelformats[streak] != channelformats[0]) break;
Structural recursion on a fuel counter; fuel 3 bounds the at most two
iterations permitted by the streak < 3 guard, so the fuel never runs out.
The accumulator oob records whether any read was out of bounds. -/
def colorLoop (cf : List ChanType) (mem : Nat → ChanType) :
    Nat → Nat → Int → Bool → Nat × Int × Bool
  | 0, streak, remaining, oob => (streak, remaining, oob)
  | fuel + 1, streak, remaining, oob =>
    if streak < 3 ∧ 0 < remaining then
      let oob := oob || cfOOB cf streak || cfOOB cf 0
      if cfRead cf mem streak ≠ cfRead cf mem 0 then (streak, remaining, oob)
      else colorLoop cf mem fuel (streak + 1) (remaining - 1) oob
    else (streak, remaining, oob)

/-- The matte and auxiliary streak loops of RLAOutput::open (lines 175-178 and
186-191), which start the comparison at channelformats[base]:
for (streak = 1; remaining > 0; ++streak, --remaining)
  if (channelformats[base + streak] != channelformats[base]) break;
Each continuing iteration decrements remaining, so fuel equal to the
initial value of remaining (as a Nat) is sufficient. -/
def streakLoop (cf : List ChanType) (mem : Nat → ChanType) (base : Nat) :
    Nat → Nat → Int → Bool → Nat × Int × Bool
  | 0, streak, remaining, oob => (streak, remaining, oob)
  | fuel + 1, streak, remaining, oob =>
    if 0 < remaining then
      let oob := oob || cfOOB cf (base + streak) || cfOOB cf base
      if cfRead cf mem (base + streak) ≠ cfRead cf mem base then (streak, remaining, oob)
      else streakLoop cf mem base fuel (streak + 1) (remaining - 1) oob
    else (streak, remaining, oob)

/-- The explicit per-channel-type branch of the classifier in RLAOutput::open
(lines 162-198).  Mirrors the C control flow: the colour loop, then the
assignment of the colour fields, then the matte block guarded by the C
truthiness test if (remaining), then the auxiliary block likewise; the
auxiliary block assigns MatteChannelType exactly as line 192 does.
Returns the populated fields together with a flag recording whether any
read of the channel-format list was out of bounds. -/
def classifyExplicit (cf : List ChanType) (mem : Nat → ChanType)
    (nchannels : Int) : RlaChans × Bool :=
  let remaining : Int := nchannels
  let (streak, remaining, oob) := colorLoop cf mem 3 1 remaining false
  let oob := oob || cfOOB cf 0
  let rla : RlaChans :=
    { ColorChannelType :=
        if cfRead cf mem 0 = ChanType.FLOAT then CT_FLOAT else CT_BYTE
      NumOfChannelBits := ((cfRead cf mem 0).size : Int) * 8
      NumOfColorChannels := (streak : Int) }
  if remaining ≠ 0 then
    let nc := rla.NumOfColorChannels.toNat
    let (streak, remaining, oob) := streakLoop cf mem nc remaining.toNat 1 remaining oob
    let oob := oob || cfOOB cf nc
    let rla : RlaChans :=
      { rla with
        MatteChannelType :=
          if cfRead cf mem nc = ChanType.FLOAT then CT_FLOAT else CT_BYTE
        NumOfMatteBits := ((cfRead cf mem nc).size : Int) * 8
        NumOfMatteChannels := (streak : Int) }
    if remaining ≠ 0 then
      let nm := rla.NumOfMatteChannels.toNat
      let (streak, _remaining, oob) :=
        streakLoop cf mem (nc + nm) remaining.toNat 1 remaining oob
      let oob := oob || cfOOB cf (nc + nm)
      let rla : RlaChans :=
        { rla with
          MatteChannelType :=
            if cfRead cf mem (nc + nm) = ChanType.FLOAT then CT_FLOAT else CT_BYTE
          NumOfAuxBits := ((cfRead cf mem (nc + nm)).size : Int) * 8
          NumOfAuxChannels := (streak : Int) }
      (rla, oob)
    else (rla, oob)
  else (rla, oob)

/-- The global-type branch of the classifier in RLAOutput::open
(lines 199-219): no per-channel list, a single global pixel type. -/
def classifyGlobal (fmt : ChanType) (nchannels : Int) : RlaChans :=
  let ct : Int := if fmt = ChanType.FLOAT then CT_FLOAT else CT_BYTE
  let bits : Int := (fmt.size : Int) * 8
  let rla : RlaChans :=
    { ColorChannelType := ct, MatteChannelType := ct, AuxChannelType := ct
      NumOfChannelBits := bits, NumOfMatteBits := bits, NumOfAuxBits := bits }
  let remaining : Int := nchannels
  let (rla, remaining) :=
    if remaining ≥ 3 then
      ({ rla with NumOfColorChannels := 3 }, remaining - 3)
    else
      ({ rla with NumOfColorChannels := 1 }, remaining - 1)
  let (rla, remaining) :=
    if remaining > 0 then
      ({ rla with NumOfMatteChannels := rla.NumOfMatteChannels + 1 }, remaining - 1)
    else (rla, remaining - 1)
  if remaining > 0 then { rla with NumOfAuxChannels := remaining } else rla

/-- The classifier dispatch of RLAOutput::open (line 163): the explicit
branch runs exactly when m_spec.channelformats is non-empty. -/
def classify (cf : List ChanType) (mem : Nat → ChanType) (fmt : ChanType)
    (nchannels : Int) : RlaChans × Bool :=
  if cf.length ≠ 0 then classifyExplicit cf mem nchannels
  else (classifyGlobal fmt nchannels, false)

/-- swap_endian on a 16-bit value: exchange the two bytes of the stored
bit pattern. -/
def swap16 (v : Nat) : Nat := v % 256 * 256 + v / 256 % 256

/-- swap_endian on a 32-bit value: reverse the four bytes of the stored
bit pattern. -/
def swap32 (v : Nat) : Nat :=
  v / 16777216 % 256 + v / 65536 % 256 * 256 + v / 256 % 256 * 65536
    + v % 256 * 16777216

/-- The bytes fwrite emits for a 16-bit field: the host's memory order,
least significant byte first on a little-endian host. -/
def bytes16 (le : Bool) (v : Nat) : List Nat :=
  if le then [v % 256, v / 256 % 256] else [v / 256 % 256, v % 256]

/-- The bytes fwrite emits for a 32-bit field in host memory order. -/
def bytes32 (le : Bool) (v : Nat) : List Nat :=
  if le then [v % 256, v / 256 % 256, v / 65536 % 256, v / 16777216 % 256]
  else [v / 16777216 % 256, v / 65536 % 256, v / 256 % 256, v % 256]

/-- The WAVEFRONT header record.  Integer fields hold the stored 16-bit
(NextOffset: 32-bit) bit patterns; character fields hold their fixed-size
byte buffers.  Modelled from the spec: the field byte widths follow the
layout list of the spec since rla_pvt.h is not among the sources. -/
structure RlaHeader where
  WindowLeft : Nat := 0
  WindowRight : Nat := 0
  WindowBottom : Nat := 0
  WindowTop : Nat := 0
  ActiveLeft : Nat := 0
  ActiveRight : Nat := 0
  ActiveBottom : Nat := 0
  ActiveTop : Nat := 0
  FrameNumber : Nat := 0
  ColorChannelType : Nat := 0
  NumOfColorChannels : Nat := 0
  NumOfMatteChannels : Nat := 0
  NumOfAuxChannels : Nat := 0
  Revision : Nat := 0
  Gamma : List Nat := List.replicate 16 0
  RedChroma : List Nat := List.replicate 24 0
  GreenChroma : List Nat := List.replicate 24 0
  BlueChroma : List Nat := List.replicate 24 0
  WhitePoint : List Nat := List.replicate 24 0
  JobNumber : Nat := 0
  FileName : List Nat := List.replicate 128 0
  Description : List Nat := List.replicate 128 0
  ProgramName : List Nat := List.replicate 64 0
  MachineName : List Nat := List.replicate 32 0
  UserName : List Nat := List.replicate 32 0
  DateCreated : List Nat := List.replicate 16 0
  Aspect : List Nat := List.replicate 24 0
  AspectRatio : List Nat := List.replicate 16 0
  ColorChannel : List Nat := List.replicate 32 0
  FieldRendered : Nat := 0
  Time : List Nat := List.replicate 16 0
  Filter : List Nat := List.replicate 32 0
  NumOfChannelBits : Nat := 0
  MatteChannelType : Nat := 0
  NumOfMatteBits : Nat := 0
  AuxChannelType : Nat := 0
  NumOfAuxBits : Nat := 0
  AuxData : List Nat := List.replicate 32 0
  Reserved : List Nat := List.replicate 36 0
  NextOffset : Nat := 0
  deriving DecidableEq

/-- The little-endian swap pass of RLAOutput::open (lines 301-325): every
multi-byte integer field is byte-swapped, character buffers are untouched. -/
def swapHeader (h : RlaHeader) : RlaHeader :=
  { h with
    WindowLeft := swap16 h.WindowLeft
    WindowRight := swap16 h.WindowRight
    WindowBottom := swap16 h.WindowBottom
    WindowTop := swap16 h.WindowTop
    ActiveLeft := swap16 h.ActiveLeft
    ActiveRight := swap16 h.ActiveRight
    ActiveBottom := swap16 h.ActiveBottom
    ActiveTop := swap16 h.ActiveTop
    FrameNumber := swap16 h.FrameNumber
    ColorChannelType := swap16 h.ColorChannelType
    NumOfColorChannels := swap16 h.NumOfColorChannels
    NumOfMatteChannels := swap16 h.NumOfMatteChannels
    NumOfAuxChannels := swap16 h.NumOfAuxChannels
    Revision := swap16 h.Revision
    JobNumber := swap16 h.JobNumber
    FieldRendered := swap16 h.FieldRendered
    NumOfChannelBits := swap16 h.NumOfChannelBits
    MatteChannelType := swap16 h.MatteChannelType
    NumOfMatteBits := swap16 h.NumOfMatteBits
    AuxChannelType := swap16 h.AuxChannelType
    NumOfAuxBits := swap16 h.NumOfAuxBits
    NextOffset := swap32 h.NextOffset }

/-- The field-by-field dump of RLAOutput::open (lines 329-370): every member
is written individually with fwrite, integer fields in host memory order,
character buffers byte for byte. -/
def dumpHeader (le : Bool) (h : RlaHeader) : List Nat :=
  bytes16 le h.WindowLeft ++ bytes16 le h.WindowRight
    ++ bytes16 le h.WindowBottom ++ bytes16 le h.WindowTop
    ++ bytes16 le h.ActiveLeft ++ bytes16 le h.ActiveRight
    ++ bytes16 le h.ActiveBottom ++ bytes16 le h.ActiveTop
    ++ bytes16 le h.FrameNumber ++ bytes16 le h.ColorChannelType
    ++ bytes16 le h.NumOfColorChannels ++ bytes16 le h.NumOfMatteChannels
    ++ bytes16 le h.NumOfAuxChannels ++ bytes16 le h.Revision
    ++ h.Gamma ++ h.RedChroma ++ h.GreenChroma ++ h.BlueChroma
    ++ h.WhitePoint ++ bytes16 le h.JobNumber ++ h.FileName
    ++ h.Description ++ h.ProgramName ++ h.MachineName ++ h.UserName
    ++ h.DateCreated ++ h.Aspect ++ h.AspectRatio ++ h.ColorChannel
    ++ bytes16 le h.FieldRendered ++ h.Time ++ h.Filter
    ++ bytes16 le h.NumOfChannelBits ++ bytes16 le h.MatteChannelType
    ++ bytes16 le h.NumOfMatteBits ++ bytes16 le h.AuxChannelType
    ++ bytes16 le h.NumOfAuxBits ++ h.AuxData ++ h.Reserved
    ++ bytes32 le h.NextOffset

/-- Header serialization as RLAOutput::open performs it: swap every integer
field when the host is little-endian (line 301), then dump field by field. -/
def serializeHeader (le : Bool) (h : RlaHeader) : List Nat :=
  dumpHeader le (if le then swapHeader h else h)

/-- Big-endian bytes of a 16-bit value: the wire format the spec requires. -/
def beBytes16 (v : Nat) : List Nat := [v / 256 % 256, v % 256]

/-- Big-endian bytes of a 32-bit value. -/
def beBytes32 (v : Nat) : List Nat :=
  [v / 16777216 % 256, v / 65536 % 256, v / 256 % 256, v % 256]

/-- The spec's description of the serialized header: every multi-byte
integer field in big-endian order, character buffers byte for byte, in
the spec's field order. -/
def serializeHeaderBE (h : RlaHeader) : List Nat :=
  beBytes16 h.WindowLeft ++ beBytes16 h.WindowRight
    ++ beBytes16 h.WindowBottom ++ beBytes16 h.WindowTop
    ++ beBytes16 h.ActiveLeft ++ beBytes16 h.ActiveRight
    ++ beBytes16 h.ActiveBottom ++ beBytes16 h.ActiveTop
    ++ beBytes16 h.FrameNumber ++ beBytes16 h.ColorChannelType
    ++ beBytes16 h.NumOfColorChannels ++ beBytes16 h.NumOfMatteChannels
    ++ beBytes16 h.NumOfAuxChannels ++ beBytes16 h.Revision
    ++ h.Gamma ++ h.RedChroma ++ h.GreenChroma ++ h.BlueChroma
    ++ h.WhitePoint ++ beBytes16 h.JobNumber ++ h.FileName
    ++ h.Description ++ h.ProgramName ++ h.MachineName ++ h.UserName
    ++ h.DateCreated ++ h.Aspect ++ h.AspectRatio ++ h.ColorChannel
    ++ beBytes16 h.FieldRendered ++ h.Time ++ h.Filter
    ++ beBytes16 h.NumOfChannelBits ++ beBytes16 h.MatteChannelType
    ++ beBytes16 h.NumOfMatteBits ++ beBytes16 h.AuxChannelType
    ++ beBytes16 h.NumOfAuxBits ++ h.AuxData ++ h.Reserved
    ++ beBytes32 h.NextOffset

/-- strncpy(dst, src, n) as used for the string attributes in
RLAOutput::open (lines 242-299): the field receives exactly n bytes, the
first min(n, length) from the source string and zeros for the rest. -/
def strncpyField (n : Nat) (s : List Nat) : List Nat :=
  s.take n ++ List.replicate (n - s.length) 0

/-- strcpy(dst, src) as used on line 285 for rla.ColorChannel: the whole
source string plus its terminating zero is written, regardless of the
destination field size. -/
def strcpyField (s : List Nat) : List Nat := s ++ [0]

/-- Modelled from the spec: the declared byte size of the ColorChannel
character field (rla_pvt.h is not among the sources). -/
def ColorChannel_size : Nat := 32

/-- Modelled from the spec: the basetype discriminant of a metadata
attribute (typedesc.h is not among the sources); only the float /
non-float distinction is consulted by set_chromaticity. -/
inductive BaseType where
  | FLOAT
  | INT32
  | STRING
  deriving DecidableEq

/-- A chromaticity metadata attribute: basetype, aggregate class (the
TypeDesc aggregate count: 1 scalar, 2 VEC2, 3 VEC3, ...) and the component
data, abstract in the component representation. -/
structure ChromAttr (α : Type) where
  basetype : BaseType
  aggregate : Nat
  data : Nat → α

/-- RLAOutput::set_chromaticity (lines 382-400).  The numeric rendering of
one component by snprintf with %.4f is abstracted as the argument fmt4,
and snprintf's truncation to field_size - 1 characters is kept.  When the
attribute is present with float basetype but an aggregate other than VEC2
or VEC3, the switch writes nothing and the zeroed field stays empty. -/
def set_chromaticity {α : Type} (fmt4 : α → String) (p : Option (ChromAttr α))
    (field_size : Nat) (default_val : String) : String :=
  match p with
  | some a =>
    if a.basetype = BaseType.FLOAT then
      if a.aggregate = 2 then
        (fmt4 (a.data 0) ++ " " ++ fmt4 (a.data 1)).take (field_size - 1)
      else if a.aggregate = 3 then
        (fmt4 (a.data 0) ++ " " ++ fmt4 (a.data 1) ++ " "
          ++ fmt4 (a.data 2)).take (field_size - 1)
      else ""
    else default_val
  | none => default_val

/-- The image dimensions RLAOutput::open validates. -/
structure SpecDims where
  width : Int
  height : Int
  depth : Int

/-- The open mode argument of ImageOutput::open. -/
inductive OpenMode where
  | Create
  | AppendSubimage
  | AppendMIPLevel
  deriving DecidableEq

/-- format_name() of the plugin. -/
def format_name : String := "rla"

/-- The placeholder scanline offset table written after the header
(lines 372-375): one zero-valued int32 per image row, fwritten in host
memory order. -/
def offsetTable (le : Bool) (height : Int) : List Nat :=
  (List.replicate height.toNat (bytes32 le 0)).flatten

/-- The validation-and-write pipeline of RLAOutput::open (lines 113-377),
with the header population (attribute strings, wall-clock date, gamma)
abstracted as the already-built record hdr: the mode check, the fopen of
the sink (fopenOk tells whether it succeeded), the resolution check, the
depth check, then the header dump followed by the offset table.  The
result is the byte content of the written file, or the error message
passed to error(). -/
def openOutput (mode : OpenMode) (fopenOk : Bool) (name : String)
    (sp : SpecDims) (le : Bool) (hdr : RlaHeader) : Except String (List Nat) :=
  if mode ≠ OpenMode.Create then
    Except.error (format_name ++ " does not support subimages or MIP levels")
  else if fopenOk = false then
    Except.error ("Could not open file \"" ++ name ++ "\"")
  else if sp.width < 1 ∨ sp.height < 1 then
    Except.error ("Image resolution must be at least 1x1, you asked for "
      ++ toString sp.width ++ " x " ++ toString sp.height)
  else if sp.depth > 1 then
    Except.error (format_name ++ " does not support volume images (depth > 1)")
  else
    Except.ok (serializeHeader le hdr ++ offsetTable le sp.height)

/-- The mutable state of an open RLAOutput session: the bytes written to
the file so far and the m_scratch buffer. -/
structure OutState where
  file : List Nat
  scratch : List Nat
  deriving DecidableEq

/-- RLAOutput::write_scanline (lines 420-434): the scanline is converted
to native format into m_scratch, no fwrite is performed, and the call
returns true. -/
def write_scanline (st : OutState) (scan : List Nat) : OutState × Bool :=
  ({ st with scratch := scan }, true)

/-- The spec's amended description of set_chromaticity: the formatted
components for a float attribute of aggregate 2 or 3, the default for an
absent or non-float attribute, and an empty field for a float attribute
of any other aggregate. -/
def chromAmendedSpec {α : Type} (fmt4 : α → String) (p : Option (ChromAttr α))
    (field_size : Nat) (default_val : String) : String :=
  match p with
  | none => default_val
  | some a =>
    if a.basetype ≠ BaseType.FLOAT then default_val
    else if a.aggregate = 2 then
      (fmt4 (a.data 0) ++ " " ++ fmt4 (a.data 1)).take (field_size - 1)
    else if a.aggregate = 3 then
      (fmt4 (a.data 0) ++ " " ++ fmt4 (a.data 1) ++ " "
        ++ fmt4 (a.data 2)).take (field_size - 1)
    else ""

lemma pair_mod (a b : Nat) (hb : b < 256) : (a * 256 + b) % 256 = b := by omega

lemma pair_div (a b : Nat) (ha : a < 256) (hb : b < 256) :
    (a * 256 + b) / 256 % 256 = a := by omega

lemma quad_b0 (a b c d : Nat) (ha : a < 256) :
    (a + b * 256 + c * 65536 + d * 16777216) % 256 = a := by omega

lemma quad_b1 (a b c d : Nat) (ha : a < 256) (hb : b < 256) :
    (a + b * 256 + c * 65536 + d * 16777216) / 256 % 256 = b := by omega

lemma quad_b2 (a b c d : Nat) (ha : a < 256) (hb : b < 256) (hc : c < 256) :
    (a + b * 256 + c * 65536 + d * 16777216) / 65536 % 256 = c := by omega

lemma quad_b3 (a b c d : Nat) (ha : a < 256) (hb : b < 256) (hc : c < 256)
    (hd : d < 256) :
    (a + b * 256 + c * 65536 + d * 16777216) / 16777216 % 256 = d := by omega

/-- Swapping then writing in little-endian memory order yields the
big-endian bytes of a 16-bit value. -/
lemma bytes16_swap (v : Nat) : bytes16 true (swap16 v) = beBytes16 v := by
  simp only [bytes16, swap16, beBytes16, if_true, List.cons.injEq, and_true]
  exact ⟨pair_mod _ _ (Nat.mod_lt _ (by norm_num)),
         pair_div _ _ (Nat.mod_lt _ (by norm_num)) (Nat.mod_lt _ (by norm_num))⟩

/-- Swapping then writing in little-endian memory order yields the
big-endian bytes of a 32-bit value. -/
lemma bytes32_swap (v : Nat) : bytes32 true (swap32 v) = beBytes32 v := by
  simp only [bytes32, swap32, beBytes32, if_true, List.cons.injEq, and_true]
  have h : ∀ x : Nat, x % 256 < 256 := fun x => Nat.mod_lt _ (by norm_num)
  exact ⟨quad_b0 _ _ _ _ (h _), quad_b1 _ _ _ _ (h _) (h _),
         quad_b2 _ _ _ _ (h _) (h _) (h _), quad_b3 _ _ _ _ (h _) (h _) (h _) (h _)⟩

/-- Folding write_scanline over any list of scanlines never changes the
file bytes. -/
lemma foldl_write_scanline_file (scans : List (List Nat)) (st : OutState) :
    (scans.foldl (fun st scan => (write_scanline st scan).1) st).file = st.file := by
  induction scans generalizing st with
  | nil => rfl
  | cons s rest ih => simpa [write_scanline] using ih _

/-- C1: the claim says that for uniform explicit channel types the matte
and aux groups are empty, but the code's remaining counter never accounts
for channel 0, so at nchannels = 3 with three equal FLOAT channels the
matte branch still runs (after reading past the end of the list) and
assigns at least one matte channel, whatever the out-of-bounds memory
holds. -/
theorem explicit_uniform_three_has_matte (mem : Nat → ChanType) :
    (classify [ChanType.FLOAT, ChanType.FLOAT, ChanType.FLOAT] mem
        ChanType.FLOAT 3).1.NumOfColorChannels = 3 ∧
    1 ≤ (classify [ChanType.FLOAT, ChanType.FLOAT, ChanType.FLOAT] mem
        ChanType.FLOAT 3).1.NumOfMatteChannels := by
  by_cases h : mem 4 = mem 3 <;>
    simp [classify, classifyExplicit, colorLoop, streakLoop, cfRead, cfOOB, h]

/-- C2: the claim says the three group sizes always sum to the channel
count, but on the explicit path with three equal FLOAT channels the sum
comes out as 5 or 6 (never 3), whatever the out-of-bounds memory holds. -/
theorem explicit_group_sizes_sum_breaks (mem : Nat → ChanType) :
    (classify [ChanType.FLOAT, ChanType.FLOAT, ChanType.FLOAT] mem
        ChanType.FLOAT 3).1.NumOfColorChannels
      + (classify [ChanType.FLOAT, ChanType.FLOAT, ChanType.FLOAT] mem
          ChanType.FLOAT 3).1.NumOfMatteChannels
      + (classify [ChanType.FLOAT, ChanType.FLOAT, ChanType.FLOAT] mem
          ChanType.FLOAT 3).1.NumOfAuxChannels ≠ 3 := by
  by_cases h : mem 4 = mem 3
  · simp [classify, classifyExplicit, colorLoop, streakLoop, cfRead, cfOOB, h]
  · by_cases h5 : mem 5 = mem 4 <;>
      simp [classify, classifyExplicit, colorLoop, streakLoop, cfRead, cfOOB, h, h5]

/-- C3: the claim says classification never reads the channel-type list
out of bounds, but already at nchannels = 1 with the one-element list
[FLOAT] the first colour-loop iteration reads index 1, past the end, and
the instrumentation flag records it. -/
theorem classifier_reads_out_of_bounds :
    (classify [ChanType.FLOAT] (fun _ => ChanType.UINT8) ChanType.FLOAT 1).2
      = true := by rfl

/-- C4: under the global-type path with channel count C ≥ 1, the colour
group gets 3 channels when C ≥ 3 and 1 channel otherwise, the remaining
count is then decremented accordingly (by 1 even when C < 3), the matte
group gets exactly 1 channel when a channel remains, and all channels
still remaining after the matte decrement go to the aux group. -/
theorem global_path_group_sizes (fmt : ChanType) (C : Int) (h : 1 ≤ C) :
    (classifyGlobal fmt C).NumOfColorChannels = (if 3 ≤ C then 3 else 1) ∧
    (classifyGlobal fmt C).NumOfMatteChannels =
      (if 0 < (if 3 ≤ C then C - 3 else C - 1) then 1 else 0) ∧
    (classifyGlobal fmt C).NumOfAuxChannels =
      (if 0 < (if 3 ≤ C then C - 3 else C - 1) - 1
       then (if 3 ≤ C then C - 3 else C - 1) - 1 else 0) := by
  by_cases h3 : 3 ≤ C
  · by_cases hm : 0 < C - 3
    · by_cases ha : 0 < C - 3 - 1
      · simp [classifyGlobal, ge_iff_le, gt_iff_lt, h3, hm, ha]
      · simp [classifyGlobal, ge_iff_le, gt_iff_lt, h3, hm, ha]
    · have ha : ¬ 0 < C - 3 - 1 := by omega
      simp [classifyGlobal, ge_iff_le, gt_iff_lt, h3, hm, ha]
  · by_cases hm : 0 < C - 1
    · have ha : ¬ 0 < C - 1 - 1 := by omega
      simp [classifyGlobal, ge_iff_le, gt_iff_lt, h3, hm, ha]
    · have ha : ¬ 0 < C - 1 - 1 := by omega
      simp [classifyGlobal, ge_iff_le, gt_iff_lt, h3, hm, ha]

/-- Witness for C4 at fmt = FLOAT and C = 5: groups (3, 1, 1). -/
theorem global_path_group_sizes_witness :
    (1 : Int) ≤ 5 ∧
    ((classifyGlobal ChanType.FLOAT 5).NumOfColorChannels = 3 ∧
     (classifyGlobal ChanType.FLOAT 5).NumOfMatteChannels = 1 ∧
     (classifyGlobal ChanType.FLOAT 5).NumOfAuxChannels = 1) := by
  refine ⟨by decide, ?_⟩
  have h := global_path_group_sizes ChanType.FLOAT 5 (by decide)
  norm_num at h
  exact h

/-- C5: the claim says a non-empty aux group determines AuxChannelType
from its first channel's type, but the aux branch of the code stores that
type code into MatteChannelType (line 192) and never writes
AuxChannelType, which keeps its zeroed (Byte) value: with channel types
[UINT8, HALF, FLOAT, FLOAT] the aux group holds 2 FLOAT channels yet
AuxChannelType stays the Byte code, and the matte group's code is
clobbered with the Float code although its channel is a HALF. -/
theorem aux_type_code_misassigned :
    (classify [ChanType.UINT8, ChanType.HALF, ChanType.FLOAT, ChanType.FLOAT]
        (fun _ => ChanType.UINT8) ChanType.UINT8 4).1.NumOfAuxChannels = 2 ∧
    (classify [ChanType.UINT8, ChanType.HALF, ChanType.FLOAT, ChanType.FLOAT]
        (fun _ => ChanType.UINT8) ChanType.UINT8 4).1.AuxChannelType = CT_BYTE ∧
    CT_BYTE ≠ CT_FLOAT ∧
    (classify [ChanType.UINT8, ChanType.HALF, ChanType.FLOAT, ChanType.FLOAT]
        (fun _ => ChanType.UINT8) ChanType.UINT8 4).1.MatteChannelType
      = CT_FLOAT := by decide

/-- C6: the serialized header equals the big-endian rendering of every
multi-byte integer field, whatever the host byte order, and a WindowLeft
bit pattern 0x0102 serializes to the leading bytes 0x01, 0x02. -/
theorem header_serialized_big_endian :
    (∀ (le : Bool) (h : RlaHeader), serializeHeader le h = serializeHeaderBE h) ∧
    List.take 2 (serializeHeader true { WindowLeft := 0x0102 }) = [0x01, 0x02] := by
  constructor
  · intro le h
    cases le
    · rfl
    · simp only [serializeHeader, dumpHeader, swapHeader, serializeHeaderBE, if_true,
        bytes16_swap, bytes32_swap]
  · rfl

/-- C7: the claim says every fixed-length character field write is bounded
by the field's declared size, but line 285 writes rla.ColorChannel with
strcpy: a 40-character attribute value makes it write 41 bytes into the
32-byte field, while the strncpy used for the other fields writes exactly
the declared size. -/
theorem colorchannel_strcpy_overflow :
    (strcpyField (List.replicate 40 97)).length = 41 ∧
    ColorChannel_size = 32 ∧
    ColorChannel_size < (strcpyField (List.replicate 40 97)).length ∧
    (strncpyField ColorChannel_size (List.replicate 40 97)).length
      = ColorChannel_size := by decide

/-- C8 counterexample: a present attribute with float basetype but scalar
aggregate (one component) falls through the switch, so the field stays
empty instead of holding the NTSC default the claim requires. -/
theorem chromaticity_scalar_float_not_default :
    set_chromaticity (fun _ : Unit => "x") (some ⟨BaseType.FLOAT, 1, fun _ => ()⟩)
        24 "0.67 0.08" = "" ∧
    ("" : String) ≠ "0.67 0.08" := by
  exact ⟨rfl, by decide⟩

/-- C8 amended: the field is the formatted components when the attribute
is present with float basetype and aggregate 2 or 3, the default when the
attribute is absent or not of float basetype, and empty when the
attribute is float-based with any other aggregate. -/
theorem chromaticity_amended_spec_holds {α : Type} (fmt4 : α → String)
    (p : Option (ChromAttr α)) (n : Nat) (d : String) :
    set_chromaticity fmt4 p n d = chromAmendedSpec fmt4 p n d := by
  cases p with
  | none => rfl
  | some a =>
    by_cases hb : a.basetype = BaseType.FLOAT <;>
      simp [set_chromaticity, chromAmendedSpec, hb]

/-- C9: the open operation returns an error message to the caller when the
width or height is below 1, when the depth exceeds 1, or when the output
sink cannot be created; in every other Create-mode situation it succeeds
and the header encoding itself never fails. -/
theorem open_failure_semantics (mode : OpenMode) (f : Bool) (name : String)
    (sp : SpecDims) (le : Bool) (hdr : RlaHeader) :
    (sp.width < 1 ∨ sp.height < 1 →
      ∃ msg, openOutput mode f name sp le hdr = Except.error msg) ∧
    (1 < sp.depth →
      ∃ msg, openOutput mode f name sp le hdr = Except.error msg) ∧
    (f = false →
      ∃ msg, openOutput mode f name sp le hdr = Except.error msg) ∧
    (mode = OpenMode.Create → f = true → 1 ≤ sp.width → 1 ≤ sp.height →
      sp.depth ≤ 1 →
      openOutput mode f name sp le hdr
        = Except.ok (serializeHeader le hdr ++ offsetTable le sp.height)) := by
  unfold openOutput
  refine ⟨?_, ?_, ?_, ?_⟩ <;> intros <;> split_ifs <;> simp_all <;> omega

/-- Witness for C9: a zero width fails, a depth of 2 fails, a failed fopen
fails, and a valid 4 by 2 by 1 image succeeds. -/
theorem open_failure_semantics_witness :
    (∃ msg, openOutput OpenMode.Create true "out.rla" ⟨0, 2, 1⟩ true {}
      = Except.error msg) ∧
    (∃ msg, openOutput OpenMode.Create true "out.rla" ⟨4, 2, 2⟩ true {}
      = Except.error msg) ∧
    (∃ msg, openOutput OpenMode.Create false "out.rla" ⟨4, 2, 1⟩ true {}
      = Except.error msg) ∧
    openOutput OpenMode.Create true "out.rla" ⟨4, 2, 1⟩ true {}
      = Except.ok (serializeHeader true {} ++ offsetTable true 2) :=
  ⟨(open_failure_semantics OpenMode.Create true "out.rla" ⟨0, 2, 1⟩ true {}).1
      (Or.inl (by decide)),
   (open_failure_semantics OpenMode.Create true "out.rla" ⟨4, 2, 2⟩ true {}).2.1
      (by decide),
   (open_failure_semantics OpenMode.Create false "out.rla" ⟨4, 2, 1⟩ true {}).2.2.1
      rfl,
   (open_failure_semantics OpenMode.Create true "out.rla" ⟨4, 2, 1⟩ true {}).2.2.2
      rfl rfl (by decide) (by decide) (by decide)⟩

/-- C10: write_scanline always returns true and never appends a byte to
the file, so after a successful open the file content stays exactly the
serialized header followed by the height zero-valued 32-bit offset
entries, however many scanlines are written. -/
theorem write_scanline_appends_nothing :
    (∀ (st : OutState) (scan : List Nat),
      (write_scanline st scan).2 = true ∧ (write_scanline st scan).1.file = st.file) ∧
    (∀ (mode : OpenMode) (f : Bool) (name : String) (sp : SpecDims) (le : Bool)
        (hdr : RlaHeader) (file : List Nat),
      openOutput mode f name sp le hdr = Except.ok file →
      ∀ scans : List (List Nat),
        (scans.foldl (fun st scan => (write_scanline st scan).1)
            { file := file, scratch := [] }).file
          = serializeHeader le hdr ++ offsetTable le sp.height) := by
  constructor
  · exact fun st scan => ⟨rfl, rfl⟩
  · intro mode f name sp le hdr file hopen scans
    rw [foldl_write_scanline_file]
    unfold openOutput at hopen
    split_ifs at hopen
    simp_all

/-- Witness for C10: a successful 4 by 2 open followed by one written
scanline leaves the file bytes at header plus offset table. -/
theorem write_scanline_appends_nothing_witness :
    (([[1, 2, 3]] : List (List Nat)).foldl
        (fun st scan => (write_scanline st scan).1)
        { file := serializeHeader true {} ++ offsetTable true 2, scratch := [] }).file
      = serializeHeader true {} ++ offsetTable true 2 :=
  write_scanline_appends_nothing.2 OpenMode.Create true "out.rla" ⟨4, 2, 1⟩ true {}
    (serializeHeader true {} ++ offsetTable true 2) rfl [[1, 2, 3]]

end RLA
